import Mathlib

/-!
Verification of the Suspected-Cancer Clinical Pathway Chatbot frontend and of
the spec-modelled backend pipeline.  The definitions below are shallow
embeddings of the TypeScript sources under `src/frontend/src` (chatStore.ts,
ChatWindow.tsx, PathwayTool.tsx, DocumentViewer) together with, where the
backend code is absent from the repository snapshot, models built from the
specification's words (each such definition is marked `Modelled from the
spec:`).  JavaScript strings are modelled as Lean `String`s (lists of
characters), JS `Date` values as `Nat` epoch milliseconds, and JS `undefined`
for optional fields as `Option`.
-/

namespace SCCP

/-- JS string slice with two non-negative arguments: `s.slice(a, b)` extracts
the characters in positions `[a, b)`, clamped to the string length, empty when
`a ≥ b`. -/
def jsSlice (s : String) (a b : Nat) : String :=
  ⟨(s.data.take b).drop a⟩

/-- JS string slice with one non-negative argument: `s.slice(a)` drops the
first `a` characters. -/
def jsSliceFrom (s : String) (a : Nat) : String :=
  ⟨s.data.drop a⟩

/-- Whitespace test used by the model of `String.prototype.trim`. -/
def isWsChar (c : Char) : Bool := c.isWhitespace

/-- Model of JS `String.prototype.trim`: strip leading and trailing
whitespace. -/
def jsTrim (s : String) : String :=
  ⟨((s.data.dropWhile isWsChar).reverse.dropWhile isWsChar).reverse⟩

/-- Helper for `jsSplitComma`: splits a character list at every `','`,
accumulating the current piece in reverse. -/
def splitCommaAux : List Char → List Char → List String
  | [], acc => [⟨acc.reverse⟩]
  | c :: rest, acc =>
    if c = ',' then ⟨acc.reverse⟩ :: splitCommaAux rest []
    else splitCommaAux rest (c :: acc)

/-- Model of JS `s.split(',')`. -/
def jsSplitComma (s : String) : List String :=
  splitCommaAux s.data []

/-- Helper for `containsSub`: does `needle` occur as a prefix of some suffix
of the second list? -/
def containsSubAux (needle : List Char) : List Char → Bool
  | [] => needle.isPrefixOf []
  | c :: rest => needle.isPrefixOf (c :: rest) || containsSubAux needle rest

/-- Bool-valued substring containment (`hay` contains `needle`). -/
def containsSub (hay needle : String) : Bool :=
  containsSubAux needle.data hay.data

/-- Lower-case a string character-wise (model of JS `toLowerCase` for the
ASCII queries this system handles). -/
def lowerStr (s : String) : String :=
  ⟨s.data.map Char.toLower⟩

/- ### Data model (src/frontend/src/types/index.ts) -/

inductive MessageRole
  | user
  | assistant
  | system
deriving DecidableEq, Repr

inductive ResponseType
  | answer
  | clarification
  | refusal
  | error
deriving DecidableEq, Repr

inductive SolutionMode
  | graphrag
  | rag
  | custom
deriving DecidableEq, Repr

inductive PathwayRouteType
  | cancer_recognition
  | symptom_triage
  | referral_guidance
  | graph_rag
  | custom
deriving DecidableEq, Repr

structure Citation where
  statement_id : String
  sectionName : String
  text : Option String := none
deriving DecidableEq, Repr

structure Artifact where
  sectionName : String
  text : String
  source : String
  source_url : String
  relevance_score : Int
  chunk_id : Option String := none
  rule_id : Option String := none
deriving DecidableEq, Repr

/-- `unknown`-typed criterion values occurring in pathway specs. -/
inductive CritValue
  | num (n : Nat)
  | str (s : String)
  | strList (l : List String)
  | boolean (b : Bool)
deriving DecidableEq, Repr

structure Criterion where
  field : String
  operator : String
  value : CritValue
  label : String
deriving DecidableEq, Repr

structure CriteriaGroup where
  operator : String
  criteria : List Criterion
deriving DecidableEq, Repr

structure PathwaySpec where
  recommendation_id : String
  title : String
  verbatim_text : String
  criteria_groups : List CriteriaGroup
  action_if_met : String
deriving DecidableEq, Repr

structure PatientCriteria where
  age : Option Nat := none
  sex : Option String := none
  smoking : Option Bool := none
  symptoms : List String := []
deriving DecidableEq, Repr

structure CompileRequest where
  recommendation_id : String
  patient_criteria : PatientCriteria
deriving DecidableEq, Repr

structure CompileResponse where
  response : String
  meets_criteria : Bool
  matched_recommendation : String
  artifacts : List Artifact
deriving DecidableEq, Repr

structure ChatMessage where
  id : String
  role : MessageRole
  content : String
  timestamp : Nat
  response_type : Option ResponseType := none
  citations : Option (List Citation) := none
  artifacts : Option (List Artifact) := none
  isTyping : Option Bool := none
  pathway_available : Option Bool := none
  pathway_spec : Option PathwaySpec := none
deriving DecidableEq, Repr

structure Conversation where
  id : String
  title : String
  messages : List ChatMessage
  createdAt : Nat
  updatedAt : Nat
deriving DecidableEq, Repr

/-- The Zustand store state of chatStore.ts (the fields the verified actions
touch). -/
structure ChatState where
  conversations : List Conversation
  activeConversationId : Option String
  isLoading : Bool
  error : Option String
  solutionMode : SolutionMode
  routeType : PathwayRouteType
  showArtifacts : Bool
deriving DecidableEq, Repr

/- ### chatStore.ts actions -/

/-- `deleteConversation` (chatStore.ts lines 107-120): removes every
conversation whose id equals the argument; if the active conversation was
deleted the first remaining one (or null) becomes active. -/
def deleteConversation (s : ChatState) (cid : String) : ChatState :=
  let newConversations := s.conversations.filter (fun c => c.id ≠ cid)
  let newActiveId :=
    if s.activeConversationId = some cid then
      (newConversations.head?).map (fun c => c.id)
    else s.activeConversationId
  { s with conversations := newConversations, activeConversationId := newActiveId }

/-- The abort controller held outside the store (`currentAbortController`),
modelled as an optional request tag, together with the store state and the
set of requests that have been aborted so far. -/
structure FullState where
  chat : ChatState
  currentAbortController : Option String
  abortedRequests : List String
deriving DecidableEq, Repr

/-- `stopGeneration` (chatStore.ts): if a controller is present, abort it,
clear it and stop the loading indicator; otherwise do nothing. -/
def stopGeneration (fs : FullState) : FullState :=
  match fs.currentAbortController with
  | some req =>
    { chat := { fs.chat with isLoading := false },
      currentAbortController := none,
      abortedRequests := fs.abortedRequests ++ [req] }
  | none => fs

/-- The fixed apology used by the streaming error handler
(`onError` callback in `sendMessage`). -/
def apologyText (errorMsg : String) : String :=
  "I apologize, but I encountered an issue: " ++ errorMsg ++ "\n\nPlease try again."

/-- Per-message part of the `onError` finalization: the assistant message
being streamed gets response_type 'error', stops typing, and keeps the
partial content (or the apology when nothing was streamed, JS `fullContent ||
...`). -/
def errFinalize (assistantMessageId fullContent errorMsg : String)
    (m : ChatMessage) : ChatMessage :=
  if m.id = assistantMessageId then
    { m with
      content := if fullContent.data.isEmpty then apologyText errorMsg else fullContent,
      isTyping := some false,
      response_type := some ResponseType.error }
  else m

/-- The `onError` state update of `sendMessage` (chatStore.ts): clears
loading, stores the error, and finalizes the streaming assistant message of
the conversation. -/
def onErrorUpdate (s : ChatState) (conversationId assistantMessageId : String)
    (fullContent errorMsg : String) (now : Nat) : ChatState :=
  { s with
    isLoading := false,
    error := some errorMsg,
    conversations := s.conversations.map (fun c =>
      if c.id = conversationId then
        { c with
          messages := c.messages.map (errFinalize assistantMessageId fullContent errorMsg),
          updatedAt := now }
      else c) }

/-- Eligibility for the streamed request context (chatStore.ts lines 502-510):
not a typing placeholder and non-empty after trimming
(`!m.isTyping && m.content && m.content.trim().length > 0`). -/
def isCtxEligible (m : ChatMessage) : Bool :=
  !(m.isTyping.getD false) && !((jsTrim m.content).data.isEmpty)

/-- A context message as sent to the backend. -/
structure CtxMessage where
  role : MessageRole
  content : String
  timestamp : Nat
deriving DecidableEq, Repr

def toCtxMessage (m : ChatMessage) : CtxMessage :=
  { role := m.role, content := jsTrim m.content, timestamp := m.timestamp }

/-- `previousMessages` construction of `sendMessage` (chatStore.ts lines
502-510): eligible messages, then JS `slice(-10)` (the last at most ten),
then the projection to context form. -/
def buildPreviousMessages (msgs : List ChatMessage) : List CtxMessage :=
  let finalized := msgs.filter isCtxEligible
  (finalized.drop (finalized.length - 10)).map toCtxMessage

/-- `addPathwayResponse` (chatStore.ts): appends the message to the active
conversation; does nothing when no conversation is active. -/
def addPathwayResponse (s : ChatState) (msg : ChatMessage) (now : Nat) : ChatState :=
  match s.activeConversationId with
  | none => s
  | some cid =>
    { s with
      conversations := s.conversations.map (fun c =>
        if c.id = cid then { c with messages := c.messages ++ [msg], updatedAt := now }
        else c) }

/- ### Persistence (chatStore.ts `partialize` / `onRehydrateStorage`) -/

/-- A conversation as written to localStorage: in-flight typing messages are
filtered out (`messages.filter(m => !m.isTyping)`). -/
def partializeConversation (c : Conversation) : Conversation :=
  { c with messages := c.messages.filter (fun m => !(m.isTyping.getD false)) }

/-- The partialized store snapshot handed to the JSON storage. -/
structure PersistedState where
  conversations : List Conversation
  activeConversationId : Option String
  solutionMode : SolutionMode
  routeType : PathwayRouteType
  showArtifacts : Bool
deriving DecidableEq, Repr

/-- `partialize` (chatStore.ts lines 697-706). -/
def partialize (s : ChatState) : PersistedState :=
  { conversations := s.conversations.map partializeConversation,
    activeConversationId := s.activeConversationId,
    solutionMode := s.solutionMode,
    routeType := s.routeType,
    showArtifacts := s.showArtifacts }

/-- A message as it sits in localStorage JSON: the Date became a string. -/
structure SMessage where
  id : String
  role : MessageRole
  content : String
  timestampStr : String
  response_type : Option ResponseType
  citations : Option (List Citation)
  artifacts : Option (List Artifact)
  isTyping : Option Bool
deriving DecidableEq, Repr

structure SConversation where
  id : String
  title : String
  messages : List SMessage
  createdAtStr : String
  updatedAtStr : String
deriving DecidableEq, Repr

structure SPersisted where
  conversations : List SConversation
  activeConversationId : Option String
deriving DecidableEq, Repr

def serializeMessage (m : ChatMessage) : SMessage :=
  { id := m.id, role := m.role, content := m.content,
    timestampStr := toString m.timestamp,
    response_type := m.response_type, citations := m.citations,
    artifacts := m.artifacts, isTyping := m.isTyping }

def serializeConversation (c : Conversation) : SConversation :=
  { id := c.id, title := c.title, messages := c.messages.map serializeMessage,
    createdAtStr := toString c.createdAt, updatedAtStr := toString c.updatedAt }

/-- JSON serialization of the partialized snapshot. -/
def serializePersisted (p : PersistedState) : SPersisted :=
  { conversations := p.conversations.map serializeConversation,
    activeConversationId := p.activeConversationId }

/-- What is actually written to localStorage for a given store state. -/
def storedSnapshot (s : ChatState) : SPersisted :=
  serializePersisted (partialize s)

/-- Decimal parse used by the rehydration model (`new Date(string)`). -/
def parseNatStr (s : String) : Nat :=
  s.data.foldl (fun acc c => acc * 10 + (c.toNat - 48)) 0

def rehydrateMessage (m : SMessage) : ChatMessage :=
  { id := m.id, role := m.role, content := m.content,
    timestamp := parseNatStr m.timestampStr,
    response_type := m.response_type, citations := m.citations,
    artifacts := m.artifacts, isTyping := m.isTyping }

def rehydrateConversation (c : SConversation) : Conversation :=
  { id := c.id, title := c.title, messages := c.messages.map rehydrateMessage,
    createdAt := parseNatStr c.createdAtStr, updatedAt := parseNatStr c.updatedAtStr }

/-- `onRehydrateStorage` (chatStore.ts): converts the stored date strings back
into Date values, leaving every other message field (isTyping included)
untouched. -/
def rehydrateConversations (p : SPersisted) : List Conversation :=
  p.conversations.map rehydrateConversation

/- ### ChatWindow.tsx -/

/-- `handlePathwaySubmit` (ChatWindow.tsx lines 136-151): the compiled
recommendation becomes a new assistant message whose response_type is
'answer' exactly when the criteria were met, and 'clarification' otherwise. -/
def pathwayResponseMessage (response : CompileResponse) (now : Nat) : ChatMessage :=
  { id := "pathway-" ++ toString now,
    role := MessageRole.assistant,
    content := response.response,
    timestamp := now,
    response_type := some (if response.meets_criteria then ResponseType.answer
                           else ResponseType.clarification),
    artifacts := some response.artifacts }

/-- The visual configuration attached to a response-type badge. -/
structure IndicatorConfig where
  icon : String
  label : String
  color : String
  bg : String
deriving DecidableEq, Repr

def answerConfig : IndicatorConfig :=
  { icon := "CheckCircle2", label := "Grounded Answer",
    color := "text-accent-600", bg := "bg-accent-50" }

def clarificationConfig : IndicatorConfig :=
  { icon := "HelpCircle", label := "Needs More Info",
    color := "text-amber-600", bg := "bg-amber-50" }

def refusalConfig : IndicatorConfig :=
  { icon := "AlertCircle", label := "Out of Scope",
    color := "text-trust-600", bg := "bg-trust-50" }

def errorConfig : IndicatorConfig :=
  { icon := "XCircle", label := "Error",
    color := "text-red-600", bg := "bg-red-50" }

/-- The JS object lookup `config[type]` in `ResponseTypeIndicator`
(ChatWindow.tsx lines 653-688); unknown keys yield `undefined`. -/
def indicatorConfigFor (t : String) : Option IndicatorConfig :=
  if t = "answer" then some answerConfig
  else if t = "clarification" then some clarificationConfig
  else if t = "refusal" then some refusalConfig
  else if t = "error" then some errorConfig
  else none

/-- `ResponseTypeIndicator` rendering choice: `config[type] || config.answer`
(ChatWindow.tsx line 681).  The runtime input is a string because the stream
metadata is cast (`event.response_type as ResponseType`). -/
def responseTypeIndicator (t : String) : IndicatorConfig :=
  (indicatorConfigFor t).getD answerConfig

/-- The four closed response-type tags of `ResponseType`
(src/frontend/src/types/index.ts line 8). -/
def responseTypeTags : List String :=
  ["answer", "clarification", "refusal", "error"]

/- ### DocumentViewer (`renderDocument`, src/unnamed/part_003 lines 65-100) -/

/-- The split computed by `renderDocument` when both highlight offsets are
present: `document.slice(0, highlight_start)`,
`document.slice(highlight_start, highlight_end)`,
`document.slice(highlight_end)`. -/
def renderHighlightParts (document : String) (highlight_start highlight_end : Nat) :
    String × String × String :=
  (jsSlice document 0 highlight_start,
   jsSlice document highlight_start highlight_end,
   jsSliceFrom document highlight_end)

/- ### PathwayTool.tsx -/

/-- `recIds` (PathwayTool.tsx line 149):
`spec.recommendation_id.split(',').map(r => r.trim())`. -/
def recIds (spec : PathwaySpec) : List String :=
  (jsSplitComma spec.recommendation_id).map jsTrim

/-- `isMultiRec` (PathwayTool.tsx line 150). -/
def isMultiRec (spec : PathwaySpec) : Bool :=
  (recIds spec).length > 1

/-- `verbatimLimit` (PathwayTool.tsx line 153): 600 characters for a
multi-recommendation check, 300 otherwise. -/
def verbatimLimit (spec : PathwaySpec) : Nat :=
  if isMultiRec spec then 600 else 300

/-- The string handed to `formatVerbatimText` for display (PathwayTool.tsx
line 195): `spec.verbatim_text.slice(0, verbatimLimit) +
(spec.verbatim_text.length > verbatimLimit ? '...' : '')`. -/
def pathwayDisplayedSource (spec : PathwaySpec) : String :=
  jsSlice spec.verbatim_text 0 (verbatimLimit spec) ++
    (if spec.verbatim_text.data.length > verbatimLimit spec then "..." else "")

/-- JS truthiness of `criteria.age` (both `undefined` and `0` are falsy). -/
def jsTruthyAge : Option Nat → Bool
  | none => false
  | some n => n != 0

/-- The set of fields mentioned by the spec's criteria groups (PathwayTool.tsx
lines 89-95 build a JS `Set`; only membership is ever consulted). -/
def specFields (spec : PathwaySpec) : List String :=
  ((spec.criteria_groups.map (fun g => g.criteria)).flatten).map (fun c => c.field)

def fieldsHas (spec : PathwaySpec) (f : String) : Bool :=
  (specFields spec).contains f

/-- `hasRequiredFields` (PathwayTool.tsx lines 143-146). -/
def hasRequiredFields (spec : PathwaySpec) (criteria : PatientCriteria) : Bool :=
  if fieldsHas spec "age" && !(jsTruthyAge criteria.age) then false else true

/-- The submit action behind the "Check Against NG12" button (PathwayTool.tsx
lines 126-141 and 314-322): the button is disabled while loading or while a
required field is missing, and `compileRecommendation` is only ever invoked
from the enabled button, with the spec's recommendation id and the entered
criteria. -/
def pathwaySubmitRequest (spec : PathwaySpec) (criteria : PatientCriteria)
    (isLoading : Bool) : Option CompileRequest :=
  if isLoading || !(hasRequiredFields spec criteria) then none
  else some { recommendation_id := spec.recommendation_id, patient_criteria := criteria }

/- ### Spec-modelled backend pipeline (the Python services under backend/ are
not part of the repository snapshot; only their documentation is).  Each
definition below is modelled from the specification's words. -/

inductive IntentValue
  | guideline_lookup
  | case_triage
  | documentation
deriving DecidableEq, Repr

/-- Modelled from the spec: `CaseFields` (§3) — age, sex, symptom list,
duration, triggers, and the explicitly enumerated missing fields are derived
per turn; the pipeline model only consults age and symptoms. -/
structure CaseFields where
  age : Option Nat := none
  sex : Option String := none
  symptoms : List String := []
  duration : Option String := none
  triggers : List String := []
deriving DecidableEq, Repr

/-- Modelled from the spec: result record of `check_safety_gate` (§4.3). -/
structure SafetyGateResult where
  passed : Bool
  redFlags : List String
  escalation_message : Option String
deriving DecidableEq, Repr

/-- Modelled from the spec: keyword patterns for explicit treatment/dosing
requests (§4.3, "explicit requests for treatment/dosing instructions"). -/
def treatmentPatterns : List String :=
  ["treatment", "dosing", "dose", "prescribe", "medication"]

/-- Modelled from the spec: patterns for requests to interpret a diagnostic
result as diagnostic (§4.3, "is this cancer"). -/
def diagnosisPatterns : List String :=
  ["is this cancer", "do i have cancer", "is it cancer"]

/-- Modelled from the spec: emergency-presentation language (§4.3). -/
def emergencyPatterns : List String :=
  ["emergency", "999", "unresponsive", "collapsed", "a&e"]

/-- Modelled from the spec: the escalation message carried by a refusal. -/
def escalationText : String :=
  "This assistant cannot advise on treatment, diagnosis or emergencies; please follow local escalation procedures."

/-- Modelled from the spec: `check_safety_gate(query)` (§4.3) — a rule-based
scan; if any rule fires, `passed = false` and an escalation message is set. -/
def check_safety_gate (query : String) : SafetyGateResult :=
  let ql := lowerStr query
  let flags :=
    (if treatmentPatterns.any (fun p => containsSub ql p) then ["treatment_request"] else []) ++
    (if diagnosisPatterns.any (fun p => containsSub ql p) then ["diagnostic_interpretation"] else []) ++
    (if emergencyPatterns.any (fun p => containsSub ql p) then ["emergency_presentation"] else [])
  { passed := flags.isEmpty,
    redFlags := flags,
    escalation_message := if flags.isEmpty then none else some escalationText }

/-- Modelled from the spec: result of `validate_intake` (§4.4). -/
structure IntakeValidation where
  is_complete : Bool
  follow_up_questions : List String
deriving DecidableEq, Repr

/-- Modelled from the spec: one targeted follow-up question per missing
required field (§4.4). -/
def followUpFor (field : String) : String :=
  if field = "age" then "What is the patient's age?"
  else if field = "symptoms" then "What symptoms does the patient have?"
  else "Could you provide the patient's " ++ field ++ "?"

/-- Modelled from the spec: `validate_intake(case_fields, intent)` (§4.4) —
for `case_triage`, `age` and at least one symptom are required; each missing
required field yields one targeted follow-up question. -/
def validate_intake (cf : CaseFields) (intent : IntentValue) : IntakeValidation :=
  if intent = IntentValue.case_triage then
    let missing :=
      (if cf.age = none then ["age"] else []) ++
      (if cf.symptoms.isEmpty then ["symptoms"] else [])
    { is_complete := missing.isEmpty,
      follow_up_questions := missing.map followUpFor }
  else
    { is_complete := true, follow_up_questions := [] }

/-- External calls a pipeline run may make downstream of the gates. -/
inductive PipelineEffect
  | retrievalCall
  | llmCall
deriving DecidableEq, Repr

/-- Modelled from the spec: the typed outcome delivered to the transport
layer, together with the external calls performed while producing it. -/
structure PipelineResponse where
  rtype : ResponseType
  message : String
  follow_up_questions : List String
  effects : List PipelineEffect
deriving DecidableEq, Repr

/-- Modelled from the spec: the staged pipeline (§2, §4.3, §4.4) — the safety
gate always runs and a red flag terminates the pipeline with a refusal before
any retrieval or generation; `case_triage` queries whose intake is incomplete
terminate with a clarification before retrieval.  Intent classification,
field extraction and the retrieval/answer stage are external capabilities,
passed in as functions; the downstream stage reports its own effects. -/
def runPipeline (classify : String → IntentValue)
    (extract : String → List String → CaseFields)
    (downstream : String → CaseFields → PipelineResponse)
    (query : String) (history : List String) : PipelineResponse :=
  let gate := check_safety_gate query
  if gate.passed then
    let intent := classify query
    if intent = IntentValue.case_triage then
      let cf := extract query history
      let v := validate_intake cf intent
      if v.is_complete then downstream query cf
      else
        { rtype := ResponseType.clarification,
          message := "I need a little more information before I can look this up.",
          follow_up_questions := v.follow_up_questions,
          effects := [] }
    else downstream query {}
  else
    { rtype := ResponseType.refusal,
      message := gate.escalation_message.getD "",
      follow_up_questions := [],
      effects := [] }

/- ### Spec-modelled corpus chunks and evidence (§3, §4.1, §4.5; the Corpus
Indexer / Evidence Engine code is not under src/). -/

/-- Modelled from the spec: a retrievable chunk carrying verbatim text (§3). -/
structure Chunk where
  chunk_id : String
  text : String
  section_path : List String
  recommendation_id : Option String := none
deriving DecidableEq, Repr

/-- Modelled from the spec: an Evidence item (§3). -/
structure Evidence where
  chunk_id : String
  text : String
  section_path : List String
  recommendation_id : Option String := none
  relevance_score : Int := 0
deriving DecidableEq, Repr

/-- Splits a character list at every newline; each returned block is a
contiguous piece of the original list. -/
def splitNlAux : List Char → List Char → List (List Char)
  | [], acc => [acc.reverse]
  | c :: rest, acc =>
    if c = '\n' then acc.reverse :: splitNlAux rest []
    else splitNlAux rest (c :: acc)

/-- Modelled from the spec: `build_index` chunking (§4.1) — the document's
blocks become chunks whose `text` is a byte-for-byte substring of the source
document (heading-structure metadata is abstracted away; only the verbatim
invariant is modelled). -/
def buildChunks (document_text : String) : List Chunk :=
  (splitNlAux document_text.data []).enum.map (fun p =>
    { chunk_id := toString p.1, text := ⟨p.2⟩, section_path := [] })

/-- Modelled from the spec: `extract_evidence` (§4.5) — one Evidence item per
retained chunk, carrying the exact chunk text unmodified. -/
def extract_evidence (retained : List Chunk) : List Evidence :=
  retained.map (fun ch =>
    { chunk_id := ch.chunk_id, text := ch.text, section_path := ch.section_path,
      recommendation_id := ch.recommendation_id })

/- ### Theorems -/

/-- C9: `deleteConversation` postcondition and frame: after
`deleteConversation id` no conversation with that id remains, every other
conversation is unchanged and in its original order, and the active id is
unchanged unless it was the deleted one, in which case it becomes the first
remaining conversation's id, or null when none remain. -/
theorem deleteConversation_spec (s : ChatState) (cid : String) :
    (∀ c ∈ (deleteConversation s cid).conversations, c.id ≠ cid) ∧
    (deleteConversation s cid).conversations.Sublist s.conversations ∧
    (∀ c ∈ s.conversations, c.id ≠ cid → c ∈ (deleteConversation s cid).conversations) ∧
    (s.activeConversationId ≠ some cid →
      (deleteConversation s cid).activeConversationId = s.activeConversationId) ∧
    (s.activeConversationId = some cid →
      ((deleteConversation s cid).conversations = [] →
        (deleteConversation s cid).activeConversationId = none) ∧
      (∀ c rest, (deleteConversation s cid).conversations = c :: rest →
        (deleteConversation s cid).activeConversationId = some c.id)) := by
  refine ⟨?_, ?_, ?_, ?_, ?_⟩
  · intro c hc
    simp only [deleteConversation, List.mem_filter, decide_eq_true_eq] at hc
    exact hc.2
  · simpa only [deleteConversation] using
      List.filter_sublist (l := s.conversations) (p := fun c => c.id ≠ cid)
  · intro c hc h
    simp only [deleteConversation, List.mem_filter, decide_eq_true_eq]
    exact ⟨hc, h⟩
  · intro h
    simp only [deleteConversation, if_neg h]
  · intro h
    constructor
    · intro hnil
      simp only [deleteConversation] at hnil ⊢
      rw [if_pos h, hnil]
      rfl
    · intro c rest hcons
      simp only [deleteConversation] at hcons ⊢
      rw [if_pos h, hcons]
      rfl

def exMsgTyping : ChatMessage :=
  { id := "m1", role := MessageRole.assistant, content := "", timestamp := 1,
    isTyping := some true }

def exMsgDone : ChatMessage :=
  { id := "m2", role := MessageRole.assistant, content := "hello", timestamp := 2,
    isTyping := some false }

def exConvA : Conversation :=
  { id := "a", title := "A", messages := [exMsgDone, exMsgTyping], createdAt := 0, updatedAt := 0 }

def exConvB : Conversation :=
  { id := "b", title := "B", messages := [exMsgDone], createdAt := 0, updatedAt := 0 }

def exState : ChatState :=
  { conversations := [exConvA, exConvB], activeConversationId := some "a",
    isLoading := false, error := none, solutionMode := SolutionMode.custom,
    routeType := PathwayRouteType.cancer_recognition, showArtifacts := true }

/-- Witness for C9: deleting the active conversation "a" of the concrete
two-conversation state promotes "b" to active. -/
theorem deleteConversation_spec_witness :
    (deleteConversation exState "a").activeConversationId = some "b" := by
  have h := ((deleteConversation_spec exState "a").2.2.2.2 (by rfl)).2 exConvB []
    (by rfl)
  simpa [exConvB] using h

/-- C10: the persisted snapshot never contains a typing message — `partialize`
filters in-flight streaming messages from every conversation — and after
rehydration every message of every conversation is finalized. -/
theorem partialize_no_typing (s : ChatState) :
    (∀ c ∈ (partialize s).conversations, ∀ m ∈ c.messages, m.isTyping ≠ some true) ∧
    (∀ c ∈ rehydrateConversations (storedSnapshot s), ∀ m ∈ c.messages,
      m.isTyping ≠ some true) := by
  constructor
  · intro c hc m hm
    simp only [partialize, List.mem_map] at hc
    obtain ⟨c0, _, rfl⟩ := hc
    simp only [partializeConversation, List.mem_filter, Bool.not_eq_eq_eq_not,
      Bool.not_true] at hm
    intro habs
    have := hm.2
    rw [habs] at this
    simp at this
  · intro c hc m hm
    simp only [rehydrateConversations, storedSnapshot, serializePersisted, partialize,
      List.mem_map, List.map_map] at hc
    obtain ⟨c0, _, rfl⟩ := hc
    simp only [rehydrateConversation, serializeConversation, Function.comp,
      partializeConversation, List.map_map, List.mem_map, List.mem_filter] at hm
    obtain ⟨m0, hm0, rfl⟩ := hm
    intro habs
    simp only [rehydrateMessage, serializeMessage, Function.comp] at habs
    rw [habs] at hm0
    simp at hm0

/-- Witness for C10: in the concrete state, the finalized message kept in the
snapshot of conversation "a" is not typing. -/
theorem partialize_no_typing_witness : exMsgDone.isTyping ≠ some true :=
  (partialize_no_typing exState).1 (partializeConversation exConvA)
    (by simp [partialize, exState]) exMsgDone
    (by simp [partializeConversation, exConvA, exMsgDone, exMsgTyping])

/-- C8: cancellation terminates only the in-flight generation call and leaves
state consistent: with a controller in flight, `stopGeneration` aborts that
request, clears the controller and the loading flag, and leaves the
conversations list (streamed partial content included), the error and every
other store field unchanged; with no controller in flight it changes
nothing. -/
theorem stopGeneration_spec (fs : FullState) :
    (∀ req, fs.currentAbortController = some req →
      (stopGeneration fs).chat.isLoading = false ∧
      (stopGeneration fs).currentAbortController = none ∧
      (stopGeneration fs).abortedRequests = fs.abortedRequests ++ [req] ∧
      (stopGeneration fs).chat.conversations = fs.chat.conversations ∧
      (stopGeneration fs).chat.activeConversationId = fs.chat.activeConversationId ∧
      (stopGeneration fs).chat.error = fs.chat.error) ∧
    (fs.currentAbortController = none → stopGeneration fs = fs) := by
  constructor
  · intro req hreq
    simp [stopGeneration, hreq]
  · intro hnone
    simp [stopGeneration, hnone]

def exFullState : FullState :=
  { chat := exState, currentAbortController := some "req-1", abortedRequests := [] }

/-- Witness for C8: stopping the concrete in-flight state aborts request
"req-1" and preserves the conversation list. -/
theorem stopGeneration_spec_witness :
    (stopGeneration exFullState).abortedRequests = ["req-1"] ∧
    (stopGeneration exFullState).chat.conversations = exState.conversations := by
  have h := (stopGeneration_spec exFullState).1 "req-1" (by rfl)
  exact ⟨h.2.2.1, h.2.2.2.1⟩

/-- C7: a failed streaming generation is finalized as an ERROR response with
no fabricated content: after the `onError` update the assistant message being
streamed has response_type 'error', is no longer typing, and its content is
exactly the already-streamed partial content when any was streamed, and
otherwise the fixed apology, which quotes the error message verbatim. -/
theorem onError_finalizes_as_error (s : ChatState)
    (conversationId assistantMessageId fullContent errorMsg : String) (now : Nat) :
    (onErrorUpdate s conversationId assistantMessageId fullContent errorMsg now).isLoading = false ∧
    (onErrorUpdate s conversationId assistantMessageId fullContent errorMsg now).error = some errorMsg ∧
    (∀ c ∈ (onErrorUpdate s conversationId assistantMessageId fullContent errorMsg now).conversations,
      ∀ m ∈ c.messages, m.id = assistantMessageId → c.id = conversationId →
        m.response_type = some ResponseType.error ∧
        m.isTyping = some false ∧
        (fullContent ≠ "" → m.content = fullContent) ∧
        (fullContent = "" → m.content = apologyText errorMsg)) ∧
    errorMsg.data <:+: (apologyText errorMsg).data := by
  refine ⟨rfl, rfl, ?_, ?_⟩
  · intro c hc m hm hmid hcid
    simp only [onErrorUpdate, List.mem_map] at hc
    obtain ⟨c0, hc0, rfl⟩ := hc
    by_cases h0 : c0.id = conversationId
    · simp only [if_pos h0, List.mem_map] at hm
      obtain ⟨m0, hm0, rfl⟩ := hm
      by_cases hid0 : m0.id = assistantMessageId
      · refine ⟨by simp [errFinalize, hid0], by simp [errFinalize, hid0], ?_, ?_⟩
        · intro hne
          have hfalse : fullContent.data.isEmpty = false := by
            cases hebool : fullContent.data.isEmpty
            · rfl
            · exfalso
              apply hne
              cases fullContent with
              | mk l => cases l with
                | nil => rfl
                | cons a t => simp [List.isEmpty] at hebool
          simp [errFinalize, hid0, hfalse]
        · intro heq
          subst heq
          simp [errFinalize, hid0, List.isEmpty]
      · exfalso
        simp only [errFinalize, if_neg hid0] at hmid
        exact hid0 hmid
    · exfalso
      simp only [if_neg h0] at hcid
      exact h0 hcid
  · refine ⟨"I apologize, but I encountered an issue: ".data, "\n\nPlease try again.".data, ?_⟩
    show _ ++ errorMsg.data ++ _ = (apologyText errorMsg).data
    rfl

def exErrState : ChatState :=
  { conversations :=
      [{ id := "conv1", title := "t",
         messages := [{ id := "asst1", role := MessageRole.assistant, content := "",
                        timestamp := 0, isTyping := some true }],
         createdAt := 0, updatedAt := 0 }],
    activeConversationId := some "conv1", isLoading := true, error := none,
    solutionMode := SolutionMode.custom,
    routeType := PathwayRouteType.cancer_recognition, showArtifacts := true }

/-- Witness for C7: finalizing a concrete failed stream with empty partial
content yields an error-typed message carrying the apology. -/
theorem onError_finalizes_as_error_witness :
    (errFinalize "asst1" "" "boom"
      { id := "asst1", role := MessageRole.assistant, content := "",
        timestamp := 0, isTyping := some true }).response_type = some ResponseType.error ∧
    (errFinalize "asst1" "" "boom"
      { id := "asst1", role := MessageRole.assistant, content := "",
        timestamp := 0, isTyping := some true }).content = apologyText "boom" := by
  have h := (onError_finalizes_as_error exErrState "conv1" "asst1" "" "boom" 7).2.2.1
    (((onErrorUpdate exErrState "conv1" "asst1" "" "boom" 7).conversations).head (by simp [onErrorUpdate, exErrState]))
    (by simp [onErrorUpdate, exErrState])
    (errFinalize "asst1" "" "boom"
      { id := "asst1", role := MessageRole.assistant, content := "",
        timestamp := 0, isTyping := some true })
    (by simp [onErrorUpdate, exErrState])
    (by simp [errFinalize]) (by simp [onErrorUpdate, exErrState])
  exact ⟨h.1, h.2.2.2 rfl⟩

/-- C1: fail-closed response typing at the pathway boundary: a
`CompileResponse` handled by `handlePathwaySubmit` is recorded as a
'clarification' message exactly when `meets_criteria` is false, an 'answer'
message only when `meets_criteria` is true, and the message is appended to
the active conversation. -/
theorem handlePathwaySubmit_fail_closed (r : CompileResponse) (now : Nat) :
    ((pathwayResponseMessage r now).response_type = some ResponseType.clarification ↔
      r.meets_criteria = false) ∧
    ((pathwayResponseMessage r now).response_type = some ResponseType.answer ↔
      r.meets_criteria = true) ∧
    (∀ s cid now2, s.activeConversationId = some cid →
      ∀ c ∈ (addPathwayResponse s (pathwayResponseMessage r now) now2).conversations,
        c.id = cid → ∃ pre, c.messages = pre ++ [pathwayResponseMessage r now]) := by
  refine ⟨?_, ?_, ?_⟩
  · cases h : r.meets_criteria <;> simp [pathwayResponseMessage, h]
  · cases h : r.meets_criteria <;> simp [pathwayResponseMessage, h]
  · intro s cid now2 hactive c hc hcid
    simp only [addPathwayResponse, hactive, List.mem_map] at hc
    obtain ⟨c0, hc0, rfl⟩ := hc
    by_cases h0 : c0.id = cid
    · exact ⟨c0.messages, by simp [if_pos h0]⟩
    · exfalso
      simp only [if_neg h0] at hcid
      exact h0 hcid

def exCompileFail : CompileResponse :=
  { response := "Criteria not met", meets_criteria := false,
    matched_recommendation := "1.1.1", artifacts := [] }

/-- Witness for C1: a concrete failed criteria check is recorded as a
clarification. -/
theorem handlePathwaySubmit_fail_closed_witness :
    (pathwayResponseMessage exCompileFail 3).response_type =
      some ResponseType.clarification :=
  ((handlePathwaySubmit_fail_closed exCompileFail 3).1).mpr rfl

/-- C5 counterexample: the rendering boundary does NOT reject values outside
the four response-type variants — `config[type] || config.answer` silently
maps the out-of-range input "unknown" to the 'answer' rendering ("Grounded
Answer"), so the claim that such a value is rejected rather than silently
mapped to another variant is false. -/
theorem responseTypeIndicator_fallback_counterexample :
    "unknown" ∉ responseTypeTags ∧
    responseTypeIndicator "unknown" = answerConfig ∧
    (responseTypeIndicator "unknown").label = "Grounded Answer" := by
  refine ⟨by decide, rfl, rfl⟩

/-- C5 amended: the set of outcomes is exactly the four tags, each of the four
variants is rendered as its own distinct configuration, and any input value
outside the four variants falls back to the 'answer' rendering instead of
being rejected. -/
theorem responseTypeIndicator_amended :
    (responseTypeIndicator "answer" = answerConfig ∧
     responseTypeIndicator "clarification" = clarificationConfig ∧
     responseTypeIndicator "refusal" = refusalConfig ∧
     responseTypeIndicator "error" = errorConfig) ∧
    responseTypeTags.Pairwise (fun a b => responseTypeIndicator a ≠ responseTypeIndicator b) ∧
    (∀ t : String, t ∉ responseTypeTags → responseTypeIndicator t = answerConfig) := by
  refine ⟨⟨rfl, rfl, rfl, rfl⟩, by decide, ?_⟩
  intro t ht
  simp only [responseTypeTags, List.mem_cons, List.not_mem_nil, or_false, not_or] at ht
  obtain ⟨h1, h2, h3, h4⟩ := ht
  simp [responseTypeIndicator, indicatorConfigFor, h1, h2, h3, h4]

/-- Witness for C5 amended: the concrete out-of-range string "bogus" falls
back to the answer configuration. -/
theorem responseTypeIndicator_amended_witness :
    responseTypeIndicator "bogus" = answerConfig :=
  responseTypeIndicator_amended.2.2 "bogus" (by decide)

def mkCtxMsg (i : Nat) : ChatMessage :=
  { id := toString i, role := MessageRole.user, content := "m" ++ toString i,
    timestamp := i }

def elevenMessages : List ChatMessage :=
  (List.range 11).map mkCtxMsg

/-- C6 counterexample: the context sent with a new message is a bounded
suffix, not the complete finalized history — with eleven finalized non-empty
messages in the conversation, the first one is eligible yet absent from the
built context, which holds only the last ten. -/
theorem context_truncation_counterexample :
    (elevenMessages.filter isCtxEligible).length = 11 ∧
    isCtxEligible (mkCtxMsg 0) = true ∧
    mkCtxMsg 0 ∈ elevenMessages ∧
    (buildPreviousMessages elevenMessages).length = 10 ∧
    toCtxMessage (mkCtxMsg 0) ∉ buildPreviousMessages elevenMessages := by
  decide

/-- C6 amended: the context contains all previously finalized non-empty
messages whenever there are at most ten of them; in general it is exactly the
suffix of the ten most recent finalized non-empty messages. -/
theorem context_window_amended (msgs : List ChatMessage) :
    ((msgs.filter isCtxEligible).length ≤ 10 →
      buildPreviousMessages msgs = (msgs.filter isCtxEligible).map toCtxMessage) ∧
    (buildPreviousMessages msgs).length = min (msgs.filter isCtxEligible).length 10 ∧
    buildPreviousMessages msgs <:+ (msgs.filter isCtxEligible).map toCtxMessage := by
  refine ⟨?_, ?_, ?_⟩
  · intro h
    simp [buildPreviousMessages, Nat.sub_eq_zero_of_le h]
  · simp only [buildPreviousMessages, List.length_map, List.length_drop]
    omega
  · refine ⟨((msgs.filter isCtxEligible).take
      ((msgs.filter isCtxEligible).length - 10)).map toCtxMessage, ?_⟩
    simp only [buildPreviousMessages]
    rw [← List.map_append, List.take_append_drop]

/-- Witness for C6 amended: a one-message history is sent in full. -/
theorem context_window_amended_witness :
    buildPreviousMessages [mkCtxMsg 0] =
      ([mkCtxMsg 0].filter isCtxEligible).map toCtxMessage :=
  (context_window_amended [mkCtxMsg 0]).1 (by decide)

/-- C3: the safety gate overrides intent: whichever intent the classifier
returns, a query that trips a red-flag rule produces a REFUSAL carrying the
escalation message, and no retrieval or LLM call happens downstream of the
failed gate. -/
theorem safety_gate_overrides_intent
    (classify : String → IntentValue) (extract : String → List String → CaseFields)
    (downstream : String → CaseFields → PipelineResponse)
    (query : String) (history : List String)
    (h : (check_safety_gate query).passed = false) :
    (runPipeline classify extract downstream query history).rtype = ResponseType.refusal ∧
    (runPipeline classify extract downstream query history).effects = [] ∧
    (check_safety_gate query).escalation_message = some escalationText ∧
    (runPipeline classify extract downstream query history).message = escalationText := by
  have hflags : ((check_safety_gate query).redFlags).isEmpty = false := h
  have hmsg : (check_safety_gate query).escalation_message = some escalationText := by
    show (if ((check_safety_gate query).redFlags).isEmpty then none
          else some escalationText) = some escalationText
    rw [hflags]
    rfl
  refine ⟨?_, ?_, hmsg, ?_⟩ <;> simp [runPipeline, h, hmsg]

/-- Scenario C query from the specification. -/
def scenarioCQuery : String :=
  "What treatment should I start while waiting for colonoscopy?"

/-- A downstream stage that would retrieve and generate if reached. -/
def exDownstream : String → CaseFields → PipelineResponse :=
  fun _ _ =>
    { rtype := ResponseType.answer, message := "answer", follow_up_questions := [],
      effects := [PipelineEffect.retrievalCall, PipelineEffect.llmCall] }

/-- Witness for C3: the concrete treatment-request query is refused with no
retrieval or generation, even under a classifier that calls it a lookup. -/
theorem safety_gate_overrides_intent_witness :
    (runPipeline (fun _ => IntentValue.guideline_lookup) (fun _ _ => {})
      exDownstream scenarioCQuery []).rtype = ResponseType.refusal ∧
    (runPipeline (fun _ => IntentValue.guideline_lookup) (fun _ _ => {})
      exDownstream scenarioCQuery []).effects = [] := by
  have h := safety_gate_overrides_intent (fun _ => IntentValue.guideline_lookup)
    (fun _ _ => {}) exDownstream scenarioCQuery [] (by decide)
  exact ⟨h.1, h.2.1⟩

/-- C4: intake completeness gating on age.  Backend half (spec-modelled): for
a `case_triage` intent with `age` missing, the pipeline stops at Structured
Intake — no retrieval or LLM effect — and returns a CLARIFICATION with a
follow-up question mentioning age.  Frontend half (PathwayTool.tsx): whenever
some criterion has field 'age' and `criteria.age` is absent,
`hasRequiredFields` is false and the submit action never issues a
`compileRecommendation` request. -/
theorem intake_age_gating :
    (∀ (classify : String → IntentValue) (extract : String → List String → CaseFields)
        (downstream : String → CaseFields → PipelineResponse)
        (query : String) (history : List String),
      (check_safety_gate query).passed = true →
      classify query = IntentValue.case_triage →
      (extract query history).age = none →
      (runPipeline classify extract downstream query history).rtype = ResponseType.clarification ∧
      (runPipeline classify extract downstream query history).effects = [] ∧
      ∃ q ∈ (runPipeline classify extract downstream query history).follow_up_questions,
        containsSub q "age" = true) ∧
    (∀ (spec : PathwaySpec) (criteria : PatientCriteria),
      fieldsHas spec "age" = true → criteria.age = none →
      hasRequiredFields spec criteria = false ∧
      ∀ isLoading, pathwaySubmitRequest spec criteria isLoading = none) := by
  constructor
  · intro classify extract downstream query history hgate hintent hage
    have hcomp : (validate_intake (extract query history) IntentValue.case_triage).is_complete
        = false := by
      simp only [validate_intake, if_pos rfl, hage]
      cases hsym : (extract query history).symptoms.isEmpty <;> simp
    have hfq : followUpFor "age" ∈
        (validate_intake (extract query history) IntentValue.case_triage).follow_up_questions := by
      simp only [validate_intake, if_pos rfl, hage]
      cases hsym : (extract query history).symptoms.isEmpty <;> simp
    refine ⟨?_, ?_, ?_⟩
    · simp [runPipeline, hgate, hintent, hcomp]
    · simp [runPipeline, hgate, hintent, hcomp]
    · refine ⟨followUpFor "age", ?_, by decide⟩
      simpa [runPipeline, hgate, hintent, hcomp] using hfq
  · intro spec criteria hfield hage
    have hreq : hasRequiredFields spec criteria = false := by
      simp [hasRequiredFields, hfield, hage, jsTruthyAge]
    refine ⟨hreq, ?_⟩
    intro isLoading
    cases isLoading <;> simp [pathwaySubmitRequest, hreq]

/-- Scenario B query from the specification (no age given). -/
def scenarioBQuery : String :=
  "A patient has abdominal pain and changed bowel habits. Should I order a FIT test?"

def exSpecWithAge : PathwaySpec :=
  { recommendation_id := "1.3.1", title := "Colorectal",
    verbatim_text := "Refer adults using a suspected cancer pathway referral.",
    criteria_groups :=
      [{ operator := "AND",
         criteria := [{ field := "age", operator := "gte", value := CritValue.num 40,
                        label := "Aged 40 and over" }] }],
    action_if_met := "refer" }

/-- Witness for C4: Scenario B stops with a clarification before retrieval,
and in the pathway tool a missing age disables submission. -/
theorem intake_age_gating_witness :
    (runPipeline (fun _ => IntentValue.case_triage)
      (fun _ _ => { symptoms := ["abdominal pain", "change in bowel habit"] })
      exDownstream scenarioBQuery []).rtype = ResponseType.clarification ∧
    hasRequiredFields exSpecWithAge {} = false ∧
    pathwaySubmitRequest exSpecWithAge {} false = none := by
  have h1 := intake_age_gating.1 (fun _ => IntentValue.case_triage)
    (fun _ _ => { symptoms := ["abdominal pain", "change in bowel habit"] })
    exDownstream scenarioBQuery [] (by decide) rfl rfl
  have h2 := intake_age_gating.2 exSpecWithAge {} (by decide) rfl
  exact ⟨h1.1, h2.1, h2.2 false⟩

/-- String append acts as list append on the underlying character data. -/
theorem strData_append (a b : String) : (a ++ b).data = a.data ++ b.data := rfl

/-- Splitting a list at positions `hs ≤ he` and recombining the three parts
is the identity. -/
theorem list_split_three (l : List Char) (hs he : Nat) (h : hs ≤ he) :
    l.take hs ++ (l.take he).drop hs ++ l.drop he = l := by
  have h1 : l.take hs = (l.take he).take hs := by
    rw [List.take_take, Nat.min_eq_left h]
  rw [h1, List.take_append_drop, List.take_append_drop]

/-- Every block produced by the newline splitter is an infix of the
accumulator's reverse followed by the remaining input. -/
theorem splitNlAux_infix (l : List Char) :
    ∀ acc, ∀ b ∈ splitNlAux l acc, b <:+: (acc.reverse ++ l) := by
  induction l with
  | nil =>
    intro acc b hb
    simp only [splitNlAux, List.mem_singleton] at hb
    subst hb
    simp
  | cons c rest ih =>
    intro acc b hb
    simp only [splitNlAux] at hb
    by_cases hc : c = '\n'
    · rw [if_pos hc] at hb
      rcases List.mem_cons.mp hb with hb1 | hb2
      · subst hb1
        exact ⟨[], c :: rest, by simp⟩
      · have hrest : b <:+: rest := by simpa using ih [] b hb2
        exact hrest.trans ⟨acc.reverse ++ [c], [], by simp⟩
    · rw [if_neg hc] at hb
      have := ih (c :: acc) b hb
      simpa [List.append_assoc] using this

/-- C2 counterexample: the pathway tool does not display `verbatim_text`
unaltered — for a single-recommendation spec whose verbatim text has 301
characters, the displayed source is a 300-character mid-text truncation with
a trailing ellipsis; and the document-viewer split identity also fails for a
crossed highlight pair (highlight_start > highlight_end). -/
theorem verbatim_display_counterexample :
    pathwayDisplayedSource
        { recommendation_id := "1.1.1", title := "T",
          verbatim_text := ⟨List.replicate 301 'a'⟩,
          criteria_groups := [], action_if_met := "" } ≠
      (⟨List.replicate 301 'a'⟩ : String) ∧
    (renderHighlightParts "abc" 2 1).1 ++ (renderHighlightParts "abc" 2 1).2.1 ++
        (renderHighlightParts "abc" 2 1).2.2 ≠ "abc" := by
  constructor
  · intro habs
    have hlen := congrArg (fun s => s.data.length) habs
    have hlim : verbatimLimit
        { recommendation_id := "1.1.1", title := "T",
          verbatim_text := ⟨List.replicate 301 'a'⟩,
          criteria_groups := [], action_if_met := "" } = 300 := by decide
    simp only [pathwayDisplayedSource, hlim, jsSlice, strData_append,
      List.length_append, List.drop_zero, List.length_take,
      List.length_replicate] at hlen
    simp at hlen
  · decide

/-- C2 amended: the document-viewer split satisfies
`before ++ highlighted ++ after = document` whenever
`highlight_start ≤ highlight_end`; the spec-modelled indexing and evidence
extraction keep every evidence text an exact substring of the source
document; and the pathway tool displays `verbatim_text` unaltered exactly
when it fits the display limit (300 characters, 600 for a
multi-recommendation check) — longer texts are truncated to the limit with a
trailing ellipsis. -/
theorem verbatim_roundtrip_amended :
    (∀ (document : String) (hs he : Nat), hs ≤ he →
      (renderHighlightParts document hs he).1 ++ (renderHighlightParts document hs he).2.1 ++
        (renderHighlightParts document hs he).2.2 = document) ∧
    (∀ document : String, ∀ ch ∈ buildChunks document, ch.text.data <:+: document.data) ∧
    (∀ retained : List Chunk, ∀ e ∈ extract_evidence retained,
      ∃ ch ∈ retained, e.text = ch.text ∧ e.chunk_id = ch.chunk_id) ∧
    (∀ spec : PathwaySpec, spec.verbatim_text.data.length ≤ verbatimLimit spec →
      pathwayDisplayedSource spec = spec.verbatim_text) := by
  refine ⟨?_, ?_, ?_, ?_⟩
  · intro document hs he h
    cases document with
    | mk l =>
      show (⟨((l.take hs).drop 0 ++ (l.take he).drop hs) ++ l.drop he⟩ : String) = ⟨l⟩
      exact congrArg String.mk (by simpa using list_split_three l hs he h)
  · intro document ch hch
    simp only [buildChunks, List.mem_map] at hch
    obtain ⟨p, hp, rfl⟩ := hch
    have hblock : p.2 ∈ splitNlAux document.data [] := by
      have := List.mem_enum_iff_get?.mp hp
      exact List.get?_mem this
    simpa using splitNlAux_infix document.data [] p.2 hblock
  · intro retained e he
    simp only [extract_evidence, List.mem_map] at he
    obtain ⟨ch, hch, rfl⟩ := he
    exact ⟨ch, hch, rfl, rfl⟩
  · intro spec h
    have hnot : ¬ spec.verbatim_text.data.length > verbatimLimit spec := by omega
    simp only [pathwayDisplayedSource, if_neg hnot, jsSlice, List.drop_zero]
    have htake : spec.verbatim_text.data.take (verbatimLimit spec) = spec.verbatim_text.data :=
      List.take_of_length_le h
    rw [htake]
    exact congrArg String.mk (List.append_nil _)

/-- Witness for C2 amended: a concrete in-range highlight recombines to the
document, and a short verbatim text is displayed unaltered. -/
theorem verbatim_roundtrip_amended_witness :
    (renderHighlightParts "abcdef" 1 3).1 ++ (renderHighlightParts "abcdef" 1 3).2.1 ++
      (renderHighlightParts "abcdef" 1 3).2.2 = "abcdef" ∧
    pathwayDisplayedSource exSpecWithAge = exSpecWithAge.verbatim_text :=
  ⟨verbatim_roundtrip_amended.1 "abcdef" 1 3 (by decide),
   verbatim_roundtrip_amended.2.2.2 exSpecWithAge (by decide)⟩

end SCCP
